import Mathlib

/-!
Shallow embedding of the status rotation scheduler of the
vencord-animated-Status plugin (source file: src/animated status/index.tsx).

External effects are made explicit: calls to the presence transport that may
reject are driven by boolean oracles, emitted toast notifications and timer
operations are returned as lists of events, and the module-level mutable
state (currentIndex, statusInterval, _lastUpdateTime) is an explicit record
threaded through the operations.  Time is a natural-number count of
milliseconds.
-/

namespace AS

/-- Toast categories used by the plugin (Toasts.Type.MESSAGE / SUCCESS / FAILURE). -/
inductive ToastType where
  | message
  | success
  | failure
deriving DecidableEq

/-- One toast notification: its message text and its type. -/
structure Toast where
  msg : String
  kind : ToastType
deriving DecidableEq

/-- One rotation entry, mirroring the StatusStep interface of the source
(text, emoji_name?, emoji_id?, category?, status?) together with the
expires_at field that setStatus reads dynamically. -/
structure StatusStep where
  text : String
  emoji_name : Option String
  emoji_id : Option String
  category : Option String
  status : Option String
  expires_at : Option String
deriving DecidableEq

/-- A repeating timer handle: its period in milliseconds and the category
captured by its callback closure. -/
structure Timer where
  period : Int
  tickCategory : Option String
deriving DecidableEq

/-- Observable timer operations: clearInterval on a live handle, and
setInterval with a given period. -/
inductive TimerEvent where
  | cleared
  | armed (period : Int)
deriving DecidableEq

/-- The module-level mutable state of the scheduler: `currentIndex`,
`statusInterval` (the timer handle, null when stopped) and the
`_lastUpdateTime` throttling timestamp. -/
structure SchedState where
  currentIndex : Nat
  statusInterval : Option Timer
  lastUpdateTime : Nat
deriving DecidableEq

/-- JavaScript truthiness of an optional string: undefined and the empty
string are falsy, every other string is truthy. -/
def strTruthy : Option String → Bool
  | none => false
  | some s => !(s == "")

/-- The category filter used by both startAnimation and updateStatus:
`category ? animation.filter(step => step.category === category) : animation`. -/
def filterByCategory (category : Option String) (animation : List StatusStep) :
    List StatusStep :=
  if strTruthy category then animation.filter (fun step => step.category == category)
  else animation

/-- The plugin method `isRunning()`: `!!statusInterval`. -/
def isRunning (st : SchedState) : Bool :=
  st.statusInterval.isSome

/-- The plugin method `stop()`: if a timer handle exists, clear it and null
the handle; otherwise do nothing.  currentIndex and lastUpdateTime are
untouched and no status is applied. -/
def stop (st : SchedState) : SchedState × List TimerEvent :=
  match st.statusInterval with
  | some _ => (⟨st.currentIndex, none, st.lastUpdateTime⟩, [TimerEvent.cleared])
  | none => (st, [])

/-- Behaviour oracle for the external calls made by one setStatus invocation:
whether the userDataCache read throws, whether the CustomStatus setting object
is available, whether CustomStatus.updateSetting rejects, whether the
StatusSetting object is available, and whether StatusSetting.updateSetting
rejects. -/
structure ExtBehavior where
  getCachedThrows : Bool
  customStatusAvailable : Bool
  customUpdateThrows : Bool
  statusSettingAvailable : Bool
  presenceUpdateThrows : Bool
deriving DecidableEq

/-- The payload handed to CustomStatus.updateSetting. -/
structure CustomStatusPayload where
  text : String
  emojiName : String
  emojiId : String
  createdAtMs : String
  expiresAtMs : String
deriving DecidableEq

/-- The value an invocation of setStatus resolves to, plus a record of what
was actually sent: the custom-status payload on success, and the presence
state if the secondary update succeeded. -/
structure SetStatusResult where
  success : Bool
  sentCustom : Option CustomStatusPayload
  sentPresence : Option String
deriving DecidableEq

/-- An external call that either returns or throws, per its oracle bit. -/
def extUnit (throws : Bool) : Except Unit Unit :=
  if throws then Except.error () else Except.ok ()

/-- The emoji-id sentinel of setStatus:
`statusObj.emoji_id?.toString() || "0"`, then `""` is replaced by `"0"`. -/
def emojiIdSentinel (step : StatusStep) : String :=
  match step.emoji_id with
  | none => "0"
  | some s => if s == "" then "0" else s

/-- The expiry sentinel of setStatus:
`statusObj.expires_at ? statusObj.expires_at.toString() : "0"`. -/
def expiresSentinel (step : StatusStep) : String :=
  match step.expires_at with
  | none => "0"
  | some s => if s == "" then "0" else s

/-- The custom-status payload setStatus builds from a step at time `now`. -/
def mkCustomPayload (step : StatusStep) (now : Nat) : CustomStatusPayload :=
  ⟨step.text, step.emoji_name.getD "", emojiIdSentinel step, toString now,
    expiresSentinel step⟩

/-- The try-block body of setStatus: read the user-data cache, bail out with
success:false if CustomStatus is unavailable, call
CustomStatus.updateSetting (a rejection propagates out of the try block),
then conditionally update the presence state inside an inner try/catch whose
failure is swallowed. -/
def setStatusTry (step : StatusStep) (now : Nat) (env : ExtBehavior) :
    Except Unit SetStatusResult :=
  match extUnit env.getCachedThrows with
  | Except.error e => Except.error e
  | Except.ok _ =>
    if !env.customStatusAvailable then
      Except.ok ⟨false, none, none⟩
    else
      match extUnit env.customUpdateThrows with
      | Except.error e => Except.error e
      | Except.ok _ =>
        if strTruthy step.status && env.statusSettingAvailable then
          match extUnit env.presenceUpdateThrows with
          | Except.ok _ => Except.ok ⟨true, some (mkCustomPayload step now), step.status⟩
          | Except.error _ => Except.ok ⟨true, some (mkCustomPayload step now), none⟩
        else Except.ok ⟨true, some (mkCustomPayload step now), none⟩

/-- The whole async setStatus method: its outer catch converts any thrown
error into a resolved `{ success: false, error }` value, so the returned
promise is what the embedding's Except value represents. -/
def setStatusAsync (step : StatusStep) (now : Nat) (env : ExtBehavior) :
    Except Unit SetStatusResult :=
  match setStatusTry step now env with
  | Except.ok r => Except.ok r
  | Except.error _ => Except.ok ⟨false, none, none⟩

/-- The success bit an awaiting caller could read off setStatus's resolution
(false if the promise rejected, which never happens). -/
def applySuccess (step : StatusStep) (now : Nat) (env : ExtBehavior) : Bool :=
  match setStatusAsync step now env with
  | Except.ok r => r.success
  | Except.error _ => false

/-- Success of the custom-status phase of setStatus alone: the cache read
returns, CustomStatus is available and its updateSetting call resolves.
Mentions none of the presence-state oracle bits. -/
def customStatusPhaseOk (env : ExtBehavior) : Bool :=
  !env.getCachedThrows && env.customStatusAvailable && !env.customUpdateThrows

/-- Outcome of one retry loop: whether it ended in a break (ok) or a rethrow,
how many apply attempts were made, and the backoff waits performed, in
milliseconds and in order. -/
structure RetryOutcome where
  ok : Bool
  attempts : Nat
  waits : List Nat
deriving DecidableEq

/-- The startAnimation retry loop
`for (let retry = 0; retry < 3; retry++) { try { await setStatus; break }
catch { if (retry === 2) throw; await sleep(500) } }`,
parameterised by which attempts throw. -/
def startRetryGo (throwsAt : Nat → Bool) : Nat → Nat → RetryOutcome
  | 0, _ => ⟨false, 0, []⟩
  | fuel + 1, retry =>
    if throwsAt retry then
      if retry = 2 then ⟨false, 1, []⟩
      else
        let rest := startRetryGo throwsAt fuel (retry + 1)
        ⟨rest.ok, rest.attempts + 1, 500 :: rest.waits⟩
    else ⟨true, 1, []⟩

/-- The startAnimation retry loop entered at retry = 0 (three iterations). -/
def startRetry (throwsAt : Nat → Bool) : RetryOutcome :=
  startRetryGo throwsAt 3 0

/-- The updateStatus retry loop
`let retries = 3; while (retries > 0) { try { await setStatus; break }
catch { retries--; if (retries <= 0) throw; await sleep((4 - retries) * 500) } }`,
parameterised by which attempts throw.  The first argument of the recursion
is the current value of `retries`, the second the index of the attempt. -/
def updateRetryGo (throwsAt : Nat → Bool) : Nat → Nat → RetryOutcome
  | 0, _ => ⟨true, 0, []⟩
  | retriesLeft + 1, attempt =>
    if throwsAt attempt then
      if retriesLeft = 0 then ⟨false, 1, []⟩
      else
        let rest := updateRetryGo throwsAt retriesLeft (attempt + 1)
        ⟨rest.ok, rest.attempts + 1, (4 - retriesLeft) * 500 :: rest.waits⟩
    else ⟨true, 1, []⟩

/-- The updateStatus retry loop entered with retries = 3. -/
def updateRetry (throwsAt : Nat → Bool) : RetryOutcome :=
  updateRetryGo throwsAt 3 0

/-- Toast shown when the parsed animation list is empty. -/
def emptyAnimationToast : Toast :=
  ⟨"Add some status animations in settings!", ToastType.message⟩

/-- JavaScript template-literal rendering of the optional category. -/
def optionCategoryText : Option String → String
  | some c => c
  | none => "undefined"

/-- Toast shown when the category-filtered step list is empty at start. -/
def emptyCategoryToast (category : Option String) : Toast :=
  ⟨"No status messages in \"" ++ optionCategoryText category ++ "\" category!",
    ToastType.failure⟩

/-- Toast shown when startAnimation succeeds. -/
def startedToast : Toast := ⟨"Status animation started!", ToastType.success⟩

/-- Toast shown by startAnimation's outer catch. -/
def startFailedToast : Toast := ⟨"Failed to start status animation", ToastType.failure⟩

/-- Toast shown by updateStatus's outer catch. -/
def updateFailedToast : Toast :=
  ⟨"Status animation stopped due to an error", ToastType.failure⟩

/-- Default used for (unreachable) out-of-bounds list indexing. -/
def defaultStep : StatusStep := ⟨"", none, none, none, none, none⟩

/-- Everything one scheduler operation produces: the new state, the toasts it
showed, the backoff waits it slept, the steps it successfully applied and the
timer operations it performed, each in order. -/
structure OpResult where
  state : SchedState
  toasts : List Toast
  waits : List Nat
  applied : List StatusStep
  timerEvents : List TimerEvent
deriving DecidableEq

/-- The async startAnimation(category?) method.  `animation` is the list
safeParseJSON produced from settings.store.animation, `timeout` is
settings.store.timeout, and `applyThrows` says which of the (up to three)
initial-apply attempts throw. -/
def startAnimation (animation : List StatusStep) (category : Option String)
    (timeout : Int) (applyThrows : Nat → Bool) (st : SchedState) : OpResult :=
  if animation.length = 0 then ⟨st, [emptyAnimationToast], [], [], []⟩
  else
    let filteredAnimation := filterByCategory category animation
    if filteredAnimation.length = 0 then ⟨st, [emptyCategoryToast category], [], [], []⟩
    else
      let clearEvents := if isRunning st then [TimerEvent.cleared] else []
      let retry := startRetry applyThrows
      if retry.ok then
        let intervalTime := max (timeout * 1000) 5000
        ⟨⟨0, some ⟨intervalTime, category⟩, st.lastUpdateTime⟩,
          [startedToast], retry.waits, [filteredAnimation.getD 0 defaultStep],
          clearEvents ++ [TimerEvent.armed intervalTime]⟩
      else
        ⟨⟨0, none, st.lastUpdateTime⟩, [startFailedToast], retry.waits, [], clearEvents⟩

/-- The async updateStatus(category?) method (the timer-tick body).  `now` is
Date.now() at the tick, `animation` the freshly re-read step list,
`randomize` the randomize flag, `randPick len` the value of
Math.floor(Math.random() * len), and `applyThrows` says which apply attempts
throw. -/
def updateStatus (now : Nat) (animation : List StatusStep) (category : Option String)
    (randomize : Bool) (randPick : Nat → Nat) (applyThrows : Nat → Bool)
    (st : SchedState) : OpResult :=
  if now - st.lastUpdateTime < 2000 then ⟨st, [], [], [], []⟩
  else
    let filteredAnimation := filterByCategory category animation
    if filteredAnimation.length = 0 then
      if isRunning st then
        ⟨⟨st.currentIndex, none, now⟩, [], [], [], [TimerEvent.cleared]⟩
      else ⟨⟨st.currentIndex, st.statusInterval, now⟩, [], [], [], []⟩
    else
      let nextIndex :=
        if randomize then randPick filteredAnimation.length
        else (st.currentIndex + 1) % filteredAnimation.length
      let retry := updateRetry applyThrows
      if retry.ok then
        ⟨⟨nextIndex, st.statusInterval, now⟩, [], retry.waits,
          [filteredAnimation.getD nextIndex defaultStep], []⟩
      else
        ⟨⟨nextIndex, none, now⟩, [updateFailedToast], retry.waits, [],
          if isRunning st then [TimerEvent.cleared] else []⟩

/-- The updateInterval(newTimeout) method: a no-op unless running; otherwise
clear the existing timer and arm a new one with period
max(newTimeout * 1000, 5000) whose callback calls updateStatus with no
category argument. -/
def updateInterval (newTimeout : Int) (st : SchedState) : SchedState × List TimerEvent :=
  match st.statusInterval with
  | none => (st, [])
  | some _ =>
    (⟨st.currentIndex, some ⟨max (newTimeout * 1000) 5000, none⟩, st.lastUpdateTime⟩,
      [TimerEvent.cleared, TimerEvent.armed (max (newTimeout * 1000) 5000)])

/-- A run of consecutive timer ticks: each tick happens `g` milliseconds
after the previous throttling timestamp, for `g` drawn from `gaps`.  Returns
the final state and the concatenated list of applied steps. -/
def runTicks (animation : List StatusStep) (category : Option String) (randomize : Bool)
    (randPick : Nat → Nat) (applyThrows : Nat → Bool) :
    List Nat → SchedState → SchedState × List StatusStep
  | [], st => (st, [])
  | g :: gs, st =>
    let r := updateStatus (st.lastUpdateTime + g) animation category randomize randPick
      applyThrows st
    let rest := runTicks animation category randomize randPick applyThrows gs r.state
    (rest.1, r.applied ++ rest.2)

/-- A concrete step tagged with the "work" category. -/
def stepWork : StatusStep := ⟨"w", none, none, some "work", none, none⟩

/-- A concrete step tagged with the "fun" category. -/
def stepFun : StatusStep := ⟨"f", none, none, some "fun", none, none⟩

/-- Concrete uncategorised step "A". -/
def stepA : StatusStep := ⟨"A", none, none, none, none, none⟩

/-- Concrete uncategorised step "B". -/
def stepB : StatusStep := ⟨"B", none, none, none, none, none⟩

/-- Concrete uncategorised step "C". -/
def stepC : StatusStep := ⟨"C", none, none, none, none, none⟩

/-- When every attempt throws, the updateStatus retry loop makes 3 attempts,
waits 1000ms then 1500ms, and ends in a rethrow. -/
theorem updateRetry_allFail (t : Nat → Bool) (h0 : t 0 = true) (h1 : t 1 = true)
    (h2 : t 2 = true) : updateRetry t = ⟨false, 3, [1000, 1500]⟩ := by
  simp [updateRetry, updateRetryGo, h0, h1, h2]

/-- The success bit of setStatus is exactly the success of its custom-status
phase, whatever the presence-state oracle does. -/
theorem applySuccess_eq_phase (step : StatusStep) (now : Nat) (env : ExtBehavior) :
    applySuccess step now env = customStatusPhaseOk env := by
  obtain ⟨g, c, u, sa, p⟩ := env
  cases g <;> cases c <;> cases u <;> cases sa <;> cases p <;>
      cases hst : strTruthy step.status <;>
    simp [applySuccess, setStatusAsync, setStatusTry, extUnit, customStatusPhaseOk, hst]

/-- C1: if the apply call fails on all 3 attempts during a tick, updateStatus
leaves the scheduler stopped (isRunning is false, the timer handle is null)
and emits exactly one failure notification. -/
theorem updateStatus_retry_exhaustion
    (now : Nat) (animation : List StatusStep) (category : Option String)
    (randomize : Bool) (randPick : Nat → Nat) (applyThrows : Nat → Bool) (st : SchedState)
    (hthrottle : 2000 ≤ now - st.lastUpdateTime)
    (hsteps : (filterByCategory category animation).length ≠ 0)
    (h0 : applyThrows 0 = true) (h1 : applyThrows 1 = true) (h2 : applyThrows 2 = true) :
    isRunning (updateStatus now animation category randomize randPick applyThrows st).state
        = false ∧
    (updateStatus now animation category randomize randPick applyThrows st).state.statusInterval
        = none ∧
    (updateStatus now animation category randomize randPick applyThrows st).toasts
        = [updateFailedToast] ∧
    updateFailedToast.kind = ToastType.failure := by
  have hret := updateRetry_allFail applyThrows h0 h1 h2
  have hng : ¬ (now - st.lastUpdateTime < 2000) := by omega
  simp [updateStatus, hret, hng, hsteps, isRunning, updateFailedToast]

/-- Witness for C1 at a concrete tick of a running scheduler. -/
theorem updateStatus_retry_exhaustion_witness :
    isRunning (updateStatus 2000 [defaultStep] none false id (fun _ => true)
        ⟨0, some ⟨5000, none⟩, 0⟩).state = false ∧
    (updateStatus 2000 [defaultStep] none false id (fun _ => true)
        ⟨0, some ⟨5000, none⟩, 0⟩).state.statusInterval = none ∧
    (updateStatus 2000 [defaultStep] none false id (fun _ => true)
        ⟨0, some ⟨5000, none⟩, 0⟩).toasts = [updateFailedToast] ∧
    updateFailedToast.kind = ToastType.failure :=
  updateStatus_retry_exhaustion 2000 [defaultStep] none false id (fun _ => true)
    ⟨0, some ⟨5000, none⟩, 0⟩ (by decide) (by decide) rfl rfl rfl

/-- C2: setStatus never rejects (its outer catch resolves every failure to a
success:false value), so an awaiting caller never observes a throw, each
retry loop performs exactly one attempt, and the backoff-wait and
retry-exhaustion branches are unreachable via an apply failure. -/
theorem setStatus_total_single_attempt :
    (∀ (step : StatusStep) (now : Nat) (env : ExtBehavior),
        (setStatusAsync step now env).isOk = true) ∧
    startRetry (fun _ => false) = ⟨true, 1, []⟩ ∧
    updateRetry (fun _ => false) = ⟨true, 1, []⟩ := by
  refine ⟨?_, by decide, by decide⟩
  intro step now env
  cases h : setStatusTry step now env <;>
    simp [setStatusAsync, h, Except.isOk, Except.toBool]

/-- C3 counterexample: when all attempts fail, the waits of the updateStatus
retry loop are 1000ms then 1500ms, not the claimed 1500ms then 1000ms, and
the startAnimation loop waits a flat 500ms, so the two loops do not share
the claimed schedule. -/
theorem retry_backoff_counterexample :
    (updateRetry (fun _ => true)).waits = [1000, 1500] ∧
    (startRetry (fun _ => true)).waits = [500, 500] ∧
    ¬ (updateRetry (fun _ => true)).waits = [1500, 1000] ∧
    ¬ (startRetry (fun _ => true)).waits = [1500, 1000] ∧
    ¬ (updateRetry (fun _ => true)).waits = (startRetry (fun _ => true)).waits := by
  decide

/-- C3 amended: both retry loops make at most 3 attempts; the updateStatus
loop waits (4 - retriesRemaining) * 500ms after a failed non-final attempt
(1000ms after the first failure, 1500ms after the second), while the
startAnimation loop waits a flat 500ms after each failed non-final attempt. -/
theorem retry_attempts_and_backoff (t : Nat → Bool) :
    ((startRetry t).attempts ≤ 3 ∧ (updateRetry t).attempts ≤ 3) ∧
    ((startRetry t).waits = [] ∨ (startRetry t).waits = [500] ∨
      (startRetry t).waits = [500, 500]) ∧
    ((updateRetry t).waits = [] ∨ (updateRetry t).waits = [1000] ∨
      (updateRetry t).waits = [1000, 1500]) := by
  cases h0 : t 0 <;> cases h1 : t 1 <;> cases h2 : t 2 <;>
    simp [startRetry, startRetryGo, updateRetry, updateRetryGo, h0, h1, h2]

/-- C9: stop is idempotent, a no-op when not running, and when running it
cancels the timer and nulls the handle while leaving currentIndex and the
throttling timestamp unchanged (it applies no status). -/
theorem stop_idempotent (st : SchedState) :
    (isRunning st = false → stop st = (st, [])) ∧
    stop (stop st).1 = ((stop st).1, []) ∧
    (stop st).1.statusInterval = none ∧
    (isRunning st = true → (stop st).2 = [TimerEvent.cleared]) ∧
    (stop st).1.currentIndex = st.currentIndex ∧
    (stop st).1.lastUpdateTime = st.lastUpdateTime := by
  cases h : st.statusInterval <;> simp [stop, isRunning, h]

/-- Witness for C9 at concrete stopped and running states. -/
theorem stop_idempotent_witness :
    stop ⟨2, none, 9⟩ = (⟨2, none, 9⟩, []) ∧
    (stop ⟨2, some ⟨7000, none⟩, 9⟩).2 = [TimerEvent.cleared] :=
  ⟨(stop_idempotent ⟨2, none, 9⟩).1 (by decide),
    (stop_idempotent ⟨2, some ⟨7000, none⟩, 9⟩).2.2.2.1 (by decide)⟩

/-- C10: the conditional presence-state update inside setStatus never
affects the overall outcome; the success bit equals the success of the
custom-status phase and is invariant under the presence-state oracle. -/
theorem setStatus_presence_independent (step : StatusStep) (now : Nat)
    (g c u sa p : Bool) :
    applySuccess step now ⟨g, c, u, sa, p⟩ = customStatusPhaseOk ⟨g, c, u, sa, p⟩ ∧
    (∀ pp : Bool, applySuccess step now ⟨g, c, u, sa, p⟩
        = applySuccess step now ⟨g, c, u, sa, pp⟩) := by
  refine ⟨applySuccess_eq_phase step now ⟨g, c, u, sa, p⟩, fun pp => ?_⟩
  rw [applySuccess_eq_phase, applySuccess_eq_phase]
  simp [customStatusPhaseOk]

/-- The category filter of the empty step list is empty. -/
theorem filterByCategory_nil (category : Option String) :
    filterByCategory category [] = [] := by
  unfold filterByCategory
  split <;> simp

/-- C5: for every integer s, the timer period armed by updateInterval and by
a successful startAnimation equals max(s * 1000, 5000) milliseconds; for
s < 5 that is exactly 5000ms, and it is never below 5000ms. -/
theorem interval_floor (s : Int) (st st2 : SchedState)
    (animation : List StatusStep) (category : Option String) (applyThrows : Nat → Bool)
    (hrun : isRunning st = true)
    (hfil : (filterByCategory category animation).length ≠ 0)
    (hok : (startRetry applyThrows).ok = true) :
    (updateInterval s st).1.statusInterval = some ⟨max (s * 1000) 5000, none⟩ ∧
    (startAnimation animation category s applyThrows st2).state.statusInterval
        = some ⟨max (s * 1000) 5000, category⟩ ∧
    (s < 5 → max (s * 1000) 5000 = 5000) ∧
    5000 ≤ max (s * 1000) 5000 := by
  have hanim : animation.length ≠ 0 := by
    intro h
    rw [List.length_eq_zero] at h
    subst h
    simp [filterByCategory_nil] at hfil
  refine ⟨?_, ?_, ?_, le_max_right _ _⟩
  · cases h : st.statusInterval
    · simp [isRunning, h] at hrun
    · simp [updateInterval, h]
  · simp [startAnimation, hanim, hfil, hok]
  · intro hs
    have hle : s * 1000 ≤ 5000 := by omega
    simp [max_eq_right hle]

/-- Witness for C5 at s = 3 with a running scheduler and a one-step list. -/
theorem interval_floor_witness :
    (updateInterval 3 ⟨0, some ⟨9000, none⟩, 0⟩).1.statusInterval
        = some ⟨max (3 * 1000) 5000, none⟩ ∧
    (startAnimation [defaultStep] none 3 (fun _ => false) ⟨0, none, 0⟩).state.statusInterval
        = some ⟨max (3 * 1000) 5000, none⟩ ∧
    ((3 : Int) < 5 → max ((3 : Int) * 1000) 5000 = 5000) ∧
    (5000 : Int) ≤ max ((3 : Int) * 1000) 5000 :=
  interval_floor 3 ⟨0, some ⟨9000, none⟩, 0⟩ ⟨0, none, 0⟩ [defaultStep] none
    (fun _ => false) (by decide) (by decide) (by decide)

/-- C6: a startAnimation call whose (category-filtered) step set is empty
shows exactly one notification, changes no scheduler state, performs no
timer operation and applies no step; from the stopped state the scheduler
stays stopped. -/
theorem empty_start (animation : List StatusStep) (category : Option String)
    (timeout : Int) (applyThrows : Nat → Bool) (st : SchedState)
    (hempty : (filterByCategory category animation).length = 0) :
    (startAnimation animation category timeout applyThrows st).state = st ∧
    (startAnimation animation category timeout applyThrows st).toasts.length = 1 ∧
    (startAnimation animation category timeout applyThrows st).timerEvents = [] ∧
    (startAnimation animation category timeout applyThrows st).applied = [] ∧
    (isRunning st = false →
      isRunning (startAnimation animation category timeout applyThrows st).state
        = false) := by
  by_cases h : animation.length = 0 <;> simp [startAnimation, h, hempty]

/-- Witness for C6: an empty step list from the stopped state. -/
theorem empty_start_witness :
    (startAnimation [] none 10 (fun _ => false) ⟨0, none, 0⟩).state = ⟨0, none, 0⟩ ∧
    (startAnimation [] none 10 (fun _ => false) ⟨0, none, 0⟩).toasts.length = 1 ∧
    (startAnimation [] none 10 (fun _ => false) ⟨0, none, 0⟩).timerEvents = [] ∧
    (startAnimation [] none 10 (fun _ => false) ⟨0, none, 0⟩).applied = [] ∧
    (isRunning (⟨0, none, 0⟩ : SchedState) = false →
      isRunning (startAnimation [] none 10 (fun _ => false) ⟨0, none, 0⟩).state = false) :=
  empty_start [] none 10 (fun _ => false) ⟨0, none, 0⟩ (by decide)

/-- C8 counterexample: a startAnimation call rejected by the empty-step check
leaves a previously nonzero currentIndex unchanged, so currentIndex is not
reset on every start call. -/
theorem start_reset_counterexample :
    ¬ (startAnimation [] none 10 (fun _ => false) ⟨5, none, 0⟩).state.currentIndex = 0 := by
  decide

/-- C8 amended: every startAnimation call that passes the empty-step checks
resets currentIndex to 0 (even when the initial apply then fails); calls
rejected by those checks leave the state untouched; and when a timer was
already running, it is cancelled before the new one is armed (the cleared
event precedes the armed event). -/
theorem start_reset_amended (animation : List StatusStep) (category : Option String)
    (timeout : Int) (applyThrows : Nat → Bool) (st : SchedState)
    (hfil : (filterByCategory category animation).length ≠ 0) :
    (startAnimation animation category timeout applyThrows st).state.currentIndex = 0 ∧
    (isRunning st = true → (startRetry applyThrows).ok = true →
      (startAnimation animation category timeout applyThrows st).timerEvents
        = [TimerEvent.cleared, TimerEvent.armed (max (timeout * 1000) 5000)]) ∧
    (isRunning st = true → (startRetry applyThrows).ok = false →
      (startAnimation animation category timeout applyThrows st).timerEvents
        = [TimerEvent.cleared]) := by
  have hanim : animation.length ≠ 0 := by
    intro h
    rw [List.length_eq_zero] at h
    subst h
    simp [filterByCategory_nil] at hfil
  cases hok : (startRetry applyThrows).ok <;> cases hr : isRunning st <;>
    simp [startAnimation, hanim, hfil, hok, hr]

/-- Witness for C8 amended: a restart from a running state with one step. -/
theorem start_reset_amended_witness :
    (startAnimation [defaultStep] none 10 (fun _ => false)
        ⟨7, some ⟨9000, none⟩, 0⟩).state.currentIndex = 0 ∧
    (isRunning (⟨7, some ⟨9000, none⟩, 0⟩ : SchedState) = true →
      (startRetry (fun _ => false)).ok = true →
      (startAnimation [defaultStep] none 10 (fun _ => false)
          ⟨7, some ⟨9000, none⟩, 0⟩).timerEvents
        = [TimerEvent.cleared, TimerEvent.armed (max (10 * 1000) 5000)]) ∧
    (isRunning (⟨7, some ⟨9000, none⟩, 0⟩ : SchedState) = true →
      (startRetry (fun _ => false)).ok = false →
      (startAnimation [defaultStep] none 10 (fun _ => false)
          ⟨7, some ⟨9000, none⟩, 0⟩).timerEvents = [TimerEvent.cleared]) :=
  start_reset_amended [defaultStep] none 10 (fun _ => false)
    ⟨7, some ⟨9000, none⟩, 0⟩ (by decide)

/-- When the filter is active, every member of the filtered list carries the
filter category. -/
theorem mem_filterByCategory (category : Option String) (animation : List StatusStep)
    (ht : strTruthy category = true) (s : StatusStep)
    (h : s ∈ filterByCategory category animation) :
    s.category = category := by
  simp only [filterByCategory, ht, if_pos] at h
  exact eq_of_beq (List.mem_filter.mp h).2

/-- An in-bounds getD access returns a member of the list. -/
theorem getD_mem {l : List StatusStep} {i : Nat} (h : i < l.length) (d : StatusStep) :
    l.getD i d ∈ l := by
  rw [List.getD_eq_getElem l d h]
  exact List.getElem_mem h

/-- C7: during a run started with a (truthy) category C, every step applied
by the initial apply and by any tick passing that same C carries category C;
steps without that category are never applied. -/
theorem category_filter (animation : List StatusStep) (c : String) (timeout : Int)
    (applyThrows : Nat → Bool) (randomize : Bool) (randPick : Nat → Nat) (now : Nat)
    (st st2 : SchedState)
    (hc : ¬ c = "")
    (hrand : ∀ n, 0 < n → randPick n < n) :
    (∀ s ∈ (startAnimation animation (some c) timeout applyThrows st).applied,
        s.category = some c) ∧
    (∀ s ∈ (updateStatus now animation (some c) randomize randPick applyThrows st2).applied,
        s.category = some c) := by
  have ht : strTruthy (some c) = true := by simp [strTruthy, hc]
  constructor
  · intro s hs
    by_cases h0 : animation.length = 0
    · simp [startAnimation, h0] at hs
    · by_cases h1 : (filterByCategory (some c) animation).length = 0
      · simp [startAnimation, h0, h1] at hs
      · cases hok : (startRetry applyThrows).ok
        · simp [startAnimation, h0, h1, hok] at hs
        · simp [startAnimation, h0, h1, hok] at hs
          subst hs
          rw [← List.getD_eq_getElem?_getD]
          exact mem_filterByCategory _ _ ht _ (getD_mem (Nat.pos_of_ne_zero h1) _)
  · intro s hs
    by_cases hth : now - st2.lastUpdateTime < 2000
    · simp [updateStatus, hth] at hs
    · by_cases h1 : (filterByCategory (some c) animation).length = 0
      · by_cases hr : isRunning st2 <;> simp [updateStatus, hth, h1, hr] at hs
      · cases hok : (updateRetry applyThrows).ok
        · simp [updateStatus, hth, h1, hok] at hs
        · simp [updateStatus, hth, h1, hok] at hs
          subst hs
          have hpos : 0 < (filterByCategory (some c) animation).length :=
            Nat.pos_of_ne_zero h1
          have hidx :
              (if randomize then randPick (filterByCategory (some c) animation).length
                else (st2.currentIndex + 1) % (filterByCategory (some c) animation).length)
              < (filterByCategory (some c) animation).length := by
            split
            · exact hrand _ hpos
            · exact Nat.mod_lt _ hpos
          rw [← List.getD_eq_getElem?_getD]
          exact mem_filterByCategory _ _ ht _ (getD_mem hidx _)

/-- Witness for C7: a two-category list started with category "work" applies
only the "work" step. -/
theorem category_filter_witness : stepWork.category = some "work" :=
  (category_filter [stepWork, stepFun] "work" 10 (fun _ => false) false (fun _ => 0)
      5000 ⟨0, none, 0⟩ ⟨0, some ⟨5000, none⟩, 0⟩ (by decide)
      (fun n hn => hn)).1 stepWork (by decide)

/-- A non-throttled sequential tick on a nonempty filtered list advances
currentIndex to (currentIndex + 1) mod N, applies exactly the step at the
new index, keeps the timer, and stamps the throttle time. -/
theorem updateStatus_tick_ok (now : Nat) (animation : List StatusStep)
    (category : Option String) (randPick : Nat → Nat) (st : SchedState)
    (hth : 2000 ≤ now - st.lastUpdateTime)
    (hpos : 0 < (filterByCategory category animation).length) :
    updateStatus now animation category false randPick (fun _ => false) st =
      ⟨⟨(st.currentIndex + 1) % (filterByCategory category animation).length,
          st.statusInterval, now⟩, [], [],
        [(filterByCategory category animation).getD
          ((st.currentIndex + 1) % (filterByCategory category animation).length)
          defaultStep], []⟩ := by
  have hng : ¬ (now - st.lastUpdateTime < 2000) := by omega
  have h1 : (filterByCategory category animation).length ≠ 0 :=
    Nat.pos_iff_ne_zero.mp hpos
  have hret : updateRetry (fun _ => false) = ⟨true, 1, []⟩ := by decide
  simp [updateStatus, hng, h1, hret]

/-- Over any run of non-throttled sequential ticks with all applies
succeeding, tick j applies the step at index (start + 1 + j) mod N. -/
theorem runTicks_applied (animation : List StatusStep) (category : Option String)
    (randPick : Nat → Nat) (gaps : List Nat) (st : SchedState)
    (hpos : 0 < (filterByCategory category animation).length)
    (hgaps : ∀ g ∈ gaps, 2000 ≤ g) :
    (runTicks animation category false randPick (fun _ => false) gaps st).2 =
      (List.range gaps.length).map (fun j =>
        (filterByCategory category animation).getD
          ((st.currentIndex + 1 + j) % (filterByCategory category animation).length)
          defaultStep) := by
  revert hgaps
  induction gaps generalizing st with
  | nil =>
    intro _
    simp [runTicks]
  | cons g gs ih =>
    intro hgaps
    have hg : 2000 ≤ g := hgaps g (List.mem_cons_self g gs)
    have hth : 2000 ≤ (st.lastUpdateTime + g) - st.lastUpdateTime := by omega
    have htick :=
      updateStatus_tick_ok (st.lastUpdateTime + g) animation category randPick st hth hpos
    have hgs : ∀ x ∈ gs, 2000 ≤ x := fun x hx => hgaps x (List.mem_cons_of_mem g hx)
    simp only [runTicks, htick]
    rw [ih ⟨(st.currentIndex + 1) % (filterByCategory category animation).length,
      st.statusInterval, st.lastUpdateTime + g⟩ hgs]
    have hfun : (fun j =>
        (filterByCategory category animation).getD
          (((st.currentIndex + 1) % (filterByCategory category animation).length + 1 + j)
            % (filterByCategory category animation).length) defaultStep)
        = (fun j =>
        (filterByCategory category animation).getD
          ((st.currentIndex + 1 + (j + 1))
            % (filterByCategory category animation).length) defaultStep) := by
      funext j
      congr 1
      rw [Nat.add_assoc ((st.currentIndex + 1) %
        (filterByCategory category animation).length) 1 j, Nat.mod_add_mod]
      congr 1
      omega
    rw [hfun, List.length_cons, List.range_succ_eq_map, List.map_cons, List.map_map]
    simp [Function.comp]

/-- C4: a non-throttled sequential tick selects index (currentIndex + 1)
mod N and stores it in currentIndex, and over N consecutive ticks after the
initial apply the applied steps equal the filtered step list rotated by one
position per tick, wrapping modulo N. -/
theorem sequential_rotation (animation : List StatusStep) (category : Option String)
    (randPick : Nat → Nat) (now : Nat) (gaps : List Nat) (st st2 : SchedState) (N : Nat)
    (hN : (filterByCategory category animation).length = N) (hpos : 0 < N)
    (hth : 2000 ≤ now - st2.lastUpdateTime)
    (hgaps : ∀ g ∈ gaps, 2000 ≤ g) (hlen : gaps.length = N) (hidx : st.currentIndex = 0) :
    (updateStatus now animation category false randPick (fun _ => false)
        st2).state.currentIndex = (st2.currentIndex + 1) % N ∧
    (runTicks animation category false randPick (fun _ => false) gaps st).2
        = (List.range N).map (fun j =>
            (filterByCategory category animation).getD ((j + 1) % N) defaultStep) := by
  subst hN
  constructor
  · rw [updateStatus_tick_ok now animation category randPick st2 hth hpos]
  · rw [runTicks_applied animation category randPick gaps st hpos hgaps, hlen, hidx]
    congr 1
    funext j
    have hjj : 0 + 1 + j = j + 1 := by omega
    rw [hjj]

/-- Witness for C4: three steps A, B, C, sequential mode, three ticks 5000ms
apart; the applied sequence is B, C, A. -/
theorem sequential_rotation_witness :
    (updateStatus 2000 [stepA, stepB, stepC] none false (fun _ => 0) (fun _ => false)
        ⟨0, some ⟨5000, none⟩, 0⟩).state.currentIndex
      = ((⟨0, some ⟨5000, none⟩, 0⟩ : SchedState).currentIndex + 1) % 3 ∧
    (runTicks [stepA, stepB, stepC] none false (fun _ => 0) (fun _ => false)
        [5000, 5000, 5000] ⟨0, some ⟨5000, none⟩, 0⟩).2
      = (List.range 3).map (fun j =>
          (filterByCategory none [stepA, stepB, stepC]).getD ((j + 1) % 3) defaultStep) :=
  sequential_rotation [stepA, stepB, stepC] none (fun _ => 0) 2000 [5000, 5000, 5000]
    ⟨0, some ⟨5000, none⟩, 0⟩ ⟨0, some ⟨5000, none⟩, 0⟩ 3 (by decide) (by decide)
    (by decide) (by decide) (by decide) (by decide)

end AS
